import Mathlib

/-!
Shallow embedding of `src/include/defaultBowlerComs.hpp` (template class
`bowlerserver::DefaultBowlerComs<N>`): the frame dispatcher (`loop`), the
handler registry (`addPacket`, `removePacket`, `addEnsuredPacket`,
`addEnsuredPackets`, `getAllPacketIDs`) and the alternating-bit reliability
state machine (`handlePacketReliable`, `handlePacketUnreliable`).

Frames are fixed-length byte sequences, modelled as `List Nat`; machine bytes
are `Nat` values (the code never does byte arithmetic, only equality tests, so
no wrap-around modelling is needed). The C++ `std::map` registries are
modelled as functions `Nat → Option _`; `std::function` packet factories are
modelled as the (deterministic) `Packet` values they produce. Transport calls
(`isDataAvailable` / `read` / `write`) are external collaborators: one loop
iteration consumes a `TransportIn` record describing their outcomes.
Observable effects (frames written, handler invocations, log lines, the value
returned to the caller, `errno`) are returned explicitly in output records.
-/

namespace Bowler

/-- Modelled from the spec: the frame header holds identifier, sequence number
and acknowledgment number, one byte each, so `HEADER_LENGTH` (declared in the
missing `bowlerDeviceServerUtil.hpp`) is 3; payload is bytes `3..N-1`. -/
def HEADER_LENGTH : Nat := 3

/-- Modelled from the spec: `BOWLER_ERROR` (declared in a missing header) is
the distinguished error return value, distinct from the success value `1` and
from the session-reset outcome `2`. -/
def BOWLER_ERROR : Int := -1

/-- Modelled from the spec: the one fixed reserved Session-Control identifier
(`SERVER_MANAGEMENT_PACKET_ID`, declared in a missing header). Its concrete
byte value is irrelevant to the dispatcher logic; any fixed byte works. -/
def SERVER_MANAGEMENT_PACKET_ID : Nat := 1

/-- Relevant `errno` values used by the code: `EINVAL` (duplicate packet id),
`ENODEV` (no handler for an inbound frame), `EWOULDBLOCK` (the distinguished
no-data condition of `isDataAvailable`), and a catch-all for other transport
failures. -/
inductive Errno where
  | EINVAL
  | ENODEV
  | EWOULDBLOCK
  | EIO
  deriving DecidableEq

/-- Reliability channel states, `enum states_t { waitForZero, waitForOne }`. -/
inductive states_t where
  | waitForZero
  | waitForOne
  deriving DecidableEq

/-- Events emitted through `BOWLER_LOG`, recorded so that "logged and
recovered" error paths stay observable in the model. -/
inductive LogEvent where
  | peekError (e : Errno)
  | readError
  | unknownPacket (id : Nat)
  | unknownReplyWriteError
  | eventError (id : Nat)
  | writeError
  deriving DecidableEq

/-- One packet event handler (`std::shared_ptr<Packet>`): a one-byte id, the
reliability flag, and the `event` callback, which consumes the payload region
and produces the response payload in place together with an `std::int32_t`
outcome (`BOWLER_ERROR`, the session-reset value `2`, or anything else). -/
structure Packet where
  id : Nat
  reliable : Bool
  event : List Nat → List Nat × Int

/-- State owned by a `DefaultBowlerComs` instance: the handler registry
`packets`, the reliability state table `reliableState`, and the ensured-packet
factory queue `ensuredPackets`. -/
structure ComsState where
  packets : Nat → Option Packet
  reliableState : Nat → Option states_t
  ensuredPackets : List Packet

/-- Map insertion, `m[k] = v` on a `std::map`. -/
def mapInsert {α : Type} (k : Nat) (v : α) (m : Nat → Option α) : Nat → Option α :=
  fun q => if q = k then some v else m q

/-- Map erasure, `m.erase(k)` on a `std::map`. -/
def mapErase {α : Type} (k : Nat) (m : Nat → Option α) : Nat → Option α :=
  fun q => if q = k then none else m q

/-- Byte 0 of a frame, `getPacketId`. -/
def getPacketId (d : List Nat) : Nat := d.getD 0 0

/-- Byte 1 of a frame, `getSeqNum`. -/
def getSeqNum (d : List Nat) : Nat := d.getD 1 0

/-- Byte 2 of a frame, `getAckNum`. -/
def getAckNum (d : List Nat) : Nat := d.getD 2 0

/-- Byte 2 assignment, `setAckNum(idata, a)`. -/
def setAckNum (d : List Nat) (a : Nat) : List Nat := d.set 2 a

/-- Payload region of a frame, `idata.data() + HEADER_LENGTH`. -/
def payloadOf (d : List Nat) : List Nat := d.drop HEADER_LENGTH

/-- Frame with its payload region replaced in place by `p` (the effect of the
handler mutating the buffer after `idata.data() + HEADER_LENGTH`). -/
def withPayload (d p : List Nat) : List Nat := d.take HEADER_LENGTH ++ p

/-- Zero-fill of the payload region,
`std::fill(std::next(idata.begin(), HEADER_LENGTH), idata.end(), 0)`. -/
def zeroPayload (d : List Nat) : List Nat :=
  d.take HEADER_LENGTH ++ List.replicate (d.length - HEADER_LENGTH) 0

/-- Result of `addPacket`: the new registry state, the `std::int32_t` return
value, and the `errno` value set (when any). -/
structure AddOut where
  coms : ComsState
  ret : Int
  errnoOut : Option Errno

/-- Registration, `DefaultBowlerComs::addPacket`: fails with `BOWLER_ERROR`
and `errno = EINVAL` when the id is already used; otherwise initializes the
reliability state (when the packet is reliable) and stores the packet. -/
def addPacket (st : ComsState) (p : Packet) : AddOut :=
  match st.packets p.id with
  | none =>
    let rs := if p.reliable then mapInsert p.id states_t.waitForZero st.reliableState
              else st.reliableState
    { coms := { packets := mapInsert p.id p st.packets, reliableState := rs,
                ensuredPackets := st.ensuredPackets },
      ret := 1, errnoOut := none }
  | some _ => { coms := st, ret := BOWLER_ERROR, errnoOut := some Errno.EINVAL }

/-- Deregistration, `DefaultBowlerComs::removePacket`: `packets.erase(iid)`. -/
def removePacket (st : ComsState) (iid : Nat) : ComsState :=
  { st with packets := mapErase iid st.packets }

/-- Deferred registration, `DefaultBowlerComs::addEnsuredPacket`: appends a
factory to the queue. -/
def addEnsuredPacket (st : ComsState) (f : Packet) : ComsState :=
  { st with ensuredPackets := st.ensuredPackets ++ [f] }

/-- Result of draining the ensured-packet queue: final state, return value,
`errno` (when set), and the factories invoked, in invocation order. -/
structure DrainOut where
  coms : ComsState
  ret : Int
  errnoOut : Option Errno
  invoked : List Packet

/-- Body of `DefaultBowlerComs::addEnsuredPackets`, folded over an explicit
factory list: invoke each factory in order, attempt `addPacket`, and return
`BOWLER_ERROR` at the first failure. -/
def addEnsuredPacketsAux : ComsState → List Packet → DrainOut
  | st, [] => { coms := st, ret := 1, errnoOut := none, invoked := [] }
  | st, f :: rest =>
    let r := addPacket st f
    if r.ret = BOWLER_ERROR then
      { coms := r.coms, ret := BOWLER_ERROR, errnoOut := r.errnoOut, invoked := [f] }
    else
      let d := addEnsuredPacketsAux r.coms rest
      { d with invoked := f :: d.invoked }

/-- Drain of the queue, `DefaultBowlerComs::addEnsuredPackets`. The queue
itself is not modified. -/
def addEnsuredPackets (st : ComsState) : DrainOut :=
  addEnsuredPacketsAux st st.ensuredPackets

/-- Successive registration of a list of packets; `none` when any
registration fails. Used to describe the successful prefix of a drain. -/
def registerAll : ComsState → List Packet → Option ComsState
  | st, [] => some st
  | st, f :: rest =>
    let r := addPacket st f
    if r.ret = BOWLER_ERROR then none else registerAll r.coms rest

/-- Outcomes of one `handlePacketReliable` or `handlePacketUnreliable` call:
the channel state stored back, the frame handed to `server->write`, the
payloads passed to the handler's `event` (in order), and log lines. -/
structure HandleOut where
  state : states_t
  written : List Nat
  calls : List (List Nat)
  logs : List LogEvent

/-- Reliability state machine, `DefaultBowlerComs::handlePacketReliable`.
`cur` is the stored channel state; `reliableState[id]` default-constructs
`waitForZero` when the key is absent, hence the `Option.getD`. `writeErr`
says whether the `server->write` of this iteration fails. -/
def handlePacketReliable (pkt : Packet) (id : Nat) (cur : Option states_t)
    (idata : List Nat) (writeErr : Bool) : HandleOut :=
  let wlog : List LogEvent := if writeErr then [LogEvent.writeError] else []
  match cur.getD states_t.waitForZero with
  | states_t.waitForZero =>
    if getSeqNum idata = 0 then
      let r := pkt.event (payloadOf idata)
      let elog : List LogEvent := if r.2 = BOWLER_ERROR then [LogEvent.eventError id] else []
      { state := if id = SERVER_MANAGEMENT_PACKET_ID ∧ r.2 = 2
                 then states_t.waitForZero else states_t.waitForOne,
        written := setAckNum (withPayload idata r.1) 0,
        calls := [payloadOf idata],
        logs := elog ++ wlog }
    else
      { state := states_t.waitForZero,
        written := setAckNum (zeroPayload idata) 1,
        calls := [], logs := wlog }
  | states_t.waitForOne =>
    if getSeqNum idata = 1 then
      let r := pkt.event (payloadOf idata)
      let elog : List LogEvent := if r.2 = BOWLER_ERROR then [LogEvent.eventError id] else []
      { state := states_t.waitForZero,
        written := setAckNum (withPayload idata r.1) 1,
        calls := [payloadOf idata],
        logs := elog ++ wlog }
    else
      { state := states_t.waitForOne,
        written := setAckNum (zeroPayload idata) 0,
        calls := [], logs := wlog }

/-- Unreliable path, `DefaultBowlerComs::handlePacketUnreliable`: invoke the
handler on the payload region, then write the frame back unconditionally.
The `state` field is unused on this path and carries `waitForZero`. -/
def handlePacketUnreliable (pkt : Packet) (id : Nat) (idata : List Nat)
    (writeErr : Bool) : HandleOut :=
  let r := pkt.event (payloadOf idata)
  { state := states_t.waitForZero,
    written := withPayload idata r.1,
    calls := [payloadOf idata],
    logs := (if r.2 = BOWLER_ERROR then [LogEvent.eventError id] else [])
            ++ (if writeErr then [LogEvent.writeError] else []) }

/-- Transport outcomes consumed by one `loop` iteration: whether
`isDataAvailable` fails (and the `errno` it sets), its boolean answer,
whether `read` fails, the frame it yields, and whether `write` fails. -/
structure TransportIn where
  availErr : Bool
  availErrno : Errno
  isDataAvailable : Bool
  readErr : Bool
  readData : List Nat
  writeErr : Bool

/-- Observable result of one `loop` iteration: the new dispatcher state, the
frames written (at most one), the handler invocations `(id, payload)`, the
`std::int32_t` return value, the `errno` the loop itself sets, and logs. -/
structure LoopOut where
  coms : ComsState
  writes : List (List Nat)
  calls : List (Nat × List Nat)
  ret : Int
  errnoOut : Option Errno
  logs : List LogEvent

/-- One iteration of `DefaultBowlerComs::loop`. -/
def loop (st : ComsState) (t : TransportIn) : LoopOut :=
  if t.availErr then
    { coms := st, writes := [], calls := [], ret := 1, errnoOut := none,
      logs := if t.availErrno = Errno.EWOULDBLOCK then []
              else [LogEvent.peekError t.availErrno] }
  else if t.isDataAvailable then
    if t.readErr then
      { coms := st, writes := [], calls := [], ret := 1, errnoOut := none,
        logs := [LogEvent.readError] }
    else
      let d := t.readData
      let id := getPacketId d
      match st.packets id with
      | none =>
        { coms := st, writes := [zeroPayload d], calls := [],
          ret := BOWLER_ERROR, errnoOut := some Errno.ENODEV,
          logs := LogEvent.unknownPacket id ::
                  (if t.writeErr then [LogEvent.unknownReplyWriteError] else []) }
      | some pkt =>
        if pkt.reliable then
          let r := handlePacketReliable pkt id (st.reliableState id) d t.writeErr
          { coms := { st with reliableState := mapInsert id r.state st.reliableState },
            writes := [r.written], calls := r.calls.map (fun p => (id, p)),
            ret := 1, errnoOut := none, logs := r.logs }
        else
          let u := handlePacketUnreliable pkt id d t.writeErr
          { coms := st, writes := [u.written], calls := u.calls.map (fun p => (id, p)),
            ret := 1, errnoOut := none, logs := u.logs }
  else
    { coms := st, writes := [], calls := [], ret := 1, errnoOut := none, logs := [] }

/-! Small computation lemmas about frames given with their header bytes
exposed, and about the map operations. -/

lemma getPacketId_cons (i : Nat) (l : List Nat) : getPacketId (i :: l) = i := rfl

lemma getSeqNum_cons (i s : Nat) (l : List Nat) : getSeqNum (i :: s :: l) = s := rfl

lemma getAckNum_cons (i s a : Nat) (l : List Nat) : getAckNum (i :: s :: a :: l) = a := rfl

lemma payloadOf_cons (i s a : Nat) (l : List Nat) : payloadOf (i :: s :: a :: l) = l := rfl

lemma zeroPayload_cons (i s a : Nat) (l : List Nat) :
    zeroPayload (i :: s :: a :: l) = i :: s :: a :: List.replicate l.length 0 := rfl

lemma setAckNum_cons (i s a v : Nat) (l : List Nat) :
    setAckNum (i :: s :: a :: l) v = i :: s :: v :: l := rfl

lemma withPayload_cons (i s a : Nat) (l p : List Nat) :
    withPayload (i :: s :: a :: l) p = i :: s :: a :: p := rfl

lemma mapInsert_self {α : Type} (k : Nat) (v : α) (m : Nat → Option α) :
    mapInsert k v m k = some v := by
  simp [mapInsert]

lemma mapInsert_ne {α : Type} (k q : Nat) (v : α) (m : Nat → Option α) (h : q ≠ k) :
    mapInsert k v m q = m q := by
  simp [mapInsert, h]

/-! Branch characterizations of `handlePacketReliable`, one per row of the
transition table. -/

lemma reliable_even_hit (pkt : Packet) (id : Nat) (d : List Nat) (w : Bool)
    (h : getSeqNum d = 0) :
    handlePacketReliable pkt id (some states_t.waitForZero) d w =
      { state := if id = SERVER_MANAGEMENT_PACKET_ID ∧ (pkt.event (payloadOf d)).2 = 2
                 then states_t.waitForZero else states_t.waitForOne,
        written := setAckNum (withPayload d (pkt.event (payloadOf d)).1) 0,
        calls := [payloadOf d],
        logs := (if (pkt.event (payloadOf d)).2 = BOWLER_ERROR
                 then [LogEvent.eventError id] else [])
                ++ (if w then [LogEvent.writeError] else []) } := by
  simp [handlePacketReliable, h]

lemma reliable_even_miss (pkt : Packet) (id : Nat) (d : List Nat) (w : Bool)
    (h : getSeqNum d ≠ 0) :
    handlePacketReliable pkt id (some states_t.waitForZero) d w =
      { state := states_t.waitForZero,
        written := setAckNum (zeroPayload d) 1,
        calls := [],
        logs := if w then [LogEvent.writeError] else [] } := by
  simp [handlePacketReliable, h]

lemma reliable_odd_hit (pkt : Packet) (id : Nat) (d : List Nat) (w : Bool)
    (h : getSeqNum d = 1) :
    handlePacketReliable pkt id (some states_t.waitForOne) d w =
      { state := states_t.waitForZero,
        written := setAckNum (withPayload d (pkt.event (payloadOf d)).1) 1,
        calls := [payloadOf d],
        logs := (if (pkt.event (payloadOf d)).2 = BOWLER_ERROR
                 then [LogEvent.eventError id] else [])
                ++ (if w then [LogEvent.writeError] else []) } := by
  simp [handlePacketReliable, h]

lemma reliable_odd_miss (pkt : Packet) (id : Nat) (d : List Nat) (w : Bool)
    (h : getSeqNum d ≠ 1) :
    handlePacketReliable pkt id (some states_t.waitForOne) d w =
      { state := states_t.waitForOne,
        written := setAckNum (zeroPayload d) 0,
        calls := [],
        logs := if w then [LogEvent.writeError] else [] } := by
  simp [handlePacketReliable, h]

/-! Branch characterizations of `loop`. -/

lemma loop_availErr (st : ComsState) (t : TransportIn) (hav : t.availErr = true) :
    loop st t =
      { coms := st, writes := [], calls := [], ret := 1, errnoOut := none,
        logs := if t.availErrno = Errno.EWOULDBLOCK then []
                else [LogEvent.peekError t.availErrno] } := by
  simp [loop, hav]

lemma loop_readErr (st : ComsState) (t : TransportIn)
    (hav : t.availErr = false) (hda : t.isDataAvailable = true) (hrd : t.readErr = true) :
    loop st t =
      { coms := st, writes := [], calls := [], ret := 1, errnoOut := none,
        logs := [LogEvent.readError] } := by
  simp [loop, hav, hda, hrd]

lemma loop_unknown (st : ComsState) (t : TransportIn)
    (hav : t.availErr = false) (hda : t.isDataAvailable = true) (hrd : t.readErr = false)
    (hpk : st.packets (getPacketId t.readData) = none) :
    loop st t =
      { coms := st, writes := [zeroPayload t.readData], calls := [],
        ret := BOWLER_ERROR, errnoOut := some Errno.ENODEV,
        logs := LogEvent.unknownPacket (getPacketId t.readData) ::
                (if t.writeErr then [LogEvent.unknownReplyWriteError] else []) } := by
  simp [loop, hav, hda, hrd, hpk]

lemma loop_reliable (st : ComsState) (t : TransportIn) (pkt : Packet) (r : HandleOut)
    (hav : t.availErr = false) (hda : t.isDataAvailable = true) (hrd : t.readErr = false)
    (hpk : st.packets (getPacketId t.readData) = some pkt) (hrel : pkt.reliable = true)
    (hr : handlePacketReliable pkt (getPacketId t.readData)
            (st.reliableState (getPacketId t.readData)) t.readData t.writeErr = r) :
    loop st t =
      { coms := { st with reliableState := mapInsert (getPacketId t.readData) r.state st.reliableState },
        writes := [r.written],
        calls := r.calls.map (fun p => (getPacketId t.readData, p)),
        ret := 1, errnoOut := none, logs := r.logs } := by
  subst hr
  simp [loop, hav, hda, hrd, hpk, hrel]

/-! Concrete fixtures used by the witness theorems. -/

/-- Test fixture: a reliable handler at id 5 that doubles every payload byte
and reports outcome 1. -/
def wRelPkt : Packet :=
  { id := 5, reliable := true, event := fun p => (p.map (fun b => 2 * b), 1) }

/-- Test fixture: a dispatcher state with no registrations at all. -/
def emptyComs : ComsState :=
  { packets := fun _ => none, reliableState := fun _ => none, ensuredPackets := [] }

/-- Test fixture: `emptyComs` after registering `wRelPkt`. -/
def wComs : ComsState := (addPacket emptyComs wRelPkt).coms

/-- Test fixture: transport delivering the frame `[5, 0, 0, 3, 0]` with no
transport failures. -/
def wT0 : TransportIn :=
  { availErr := false, availErrno := Errno.EIO, isDataAvailable := true,
    readErr := false, readData := [5, 0, 0, 3, 0], writeErr := false }

/-- Test fixture: `wComs` after one accepted sequence-0 frame on channel 5,
whose reliability state is therefore `waitForOne`. -/
def wComsOdd : ComsState := (loop wComs wT0).coms

/-- Test fixture: transport delivering the frame `[5, 1, 0, 4, 9]` with no
transport failures. -/
def wT1 : TransportIn :=
  { availErr := false, availErrno := Errno.EIO, isDataAvailable := true,
    readErr := false, readData := [5, 1, 0, 4, 9], writeErr := false }

/-- C1: for every reliable channel in state `waitForZero` (AwaitingEven)
receiving a frame with sequence number 0, the dispatcher invokes the handler's
`event` on the payload region exactly once, sets the acknowledgment byte to 0,
writes the frame, and moves the channel to `waitForOne` (AwaitingOdd) — except
that when the channel is `SERVER_MANAGEMENT_PACKET_ID` and the handler outcome
signals reset (outcome value 2), the channel remains in `waitForZero`. -/
theorem C1_awaitingEven_accept (st : ComsState) (t : TransportIn) (pkt : Packet)
    (i a : Nat) (rest : List Nat)
    (hav : t.availErr = false) (hda : t.isDataAvailable = true) (hrd : t.readErr = false)
    (hdat : t.readData = i :: 0 :: a :: rest)
    (hpk : st.packets i = some pkt) (hrel : pkt.reliable = true)
    (hst : st.reliableState i = some states_t.waitForZero) :
    (loop st t).calls = [(i, rest)] ∧
    (loop st t).writes = [i :: 0 :: 0 :: (pkt.event rest).1] ∧
    getAckNum (i :: 0 :: 0 :: (pkt.event rest).1) = 0 ∧
    (loop st t).coms.reliableState i
      = some (if i = SERVER_MANAGEMENT_PACKET_ID ∧ (pkt.event rest).2 = 2
              then states_t.waitForZero else states_t.waitForOne) ∧
    (loop st t).coms.packets = st.packets ∧
    (loop st t).ret = 1 := by
  have hpk2 : st.packets (getPacketId t.readData) = some pkt := by
    rw [hdat]; exact hpk
  have hseq : getSeqNum t.readData = 0 := by rw [hdat]; rfl
  have hcur : st.reliableState (getPacketId t.readData) = some states_t.waitForZero := by
    rw [hdat]; exact hst
  have hr := reliable_even_hit pkt (getPacketId t.readData) t.readData t.writeErr hseq
  rw [← hcur] at hr
  have hl := loop_reliable st t pkt _ hav hda hrd hpk2 hrel hr
  rw [hl]
  refine ⟨?_, ?_, ?_, ?_, ?_, ?_⟩ <;>
    simp [hdat, getPacketId_cons, payloadOf_cons, withPayload_cons, setAckNum_cons,
          getAckNum_cons, mapInsert_self]

/-- Witness for C1 at a concrete state and frame. -/
theorem C1_witness :
    (loop wComs wT0).calls = [(5, [3, 0])] ∧
    (loop wComs wT0).writes = [5 :: 0 :: 0 :: (wRelPkt.event [3, 0]).1] ∧
    getAckNum (5 :: 0 :: 0 :: (wRelPkt.event [3, 0]).1) = 0 ∧
    (loop wComs wT0).coms.reliableState 5
      = some (if 5 = SERVER_MANAGEMENT_PACKET_ID ∧ (wRelPkt.event [3, 0]).2 = 2
              then states_t.waitForZero else states_t.waitForOne) ∧
    (loop wComs wT0).coms.packets = wComs.packets ∧
    (loop wComs wT0).ret = 1 :=
  C1_awaitingEven_accept wComs wT0 wRelPkt 5 0 [3, 0] rfl rfl rfl rfl rfl rfl rfl

/-- C2: for every reliable channel receiving a frame whose sequence number does
not match the expected parity (1 in `waitForZero`, 0 in `waitForOne`), the
handler is not invoked, the payload region is zeroed, the acknowledgment byte
is set to the received sequence parity, the frame is written, and the channel
state is unchanged. -/
theorem C2_duplicate_retransmit (pkt : Packet) (id : Nat) (w : Bool)
    (i a : Nat) (rest : List Nat) :
    ((handlePacketReliable pkt id (some states_t.waitForZero) (i :: 1 :: a :: rest) w).calls
       = [] ∧
     (handlePacketReliable pkt id (some states_t.waitForZero) (i :: 1 :: a :: rest) w).written
       = i :: 1 :: 1 :: List.replicate rest.length 0 ∧
     (handlePacketReliable pkt id (some states_t.waitForZero) (i :: 1 :: a :: rest) w).state
       = states_t.waitForZero) ∧
    ((handlePacketReliable pkt id (some states_t.waitForOne) (i :: 0 :: a :: rest) w).calls
       = [] ∧
     (handlePacketReliable pkt id (some states_t.waitForOne) (i :: 0 :: a :: rest) w).written
       = i :: 0 :: 0 :: List.replicate rest.length 0 ∧
     (handlePacketReliable pkt id (some states_t.waitForOne) (i :: 0 :: a :: rest) w).state
       = states_t.waitForOne) :=
  ⟨⟨rfl, rfl, rfl⟩, ⟨rfl, rfl, rfl⟩⟩

/-- C3: for every reliable channel in state `waitForOne` (AwaitingOdd)
receiving a frame with sequence number 1, the dispatcher invokes the handler's
`event`, sets the acknowledgment byte to 1, writes the frame, and moves the
channel to `waitForZero` (AwaitingEven) unconditionally, for every handler
outcome and every identifier, the Session-Control one included. -/
theorem C3_awaitingOdd_accept (st : ComsState) (t : TransportIn) (pkt : Packet)
    (i a : Nat) (rest : List Nat)
    (hav : t.availErr = false) (hda : t.isDataAvailable = true) (hrd : t.readErr = false)
    (hdat : t.readData = i :: 1 :: a :: rest)
    (hpk : st.packets i = some pkt) (hrel : pkt.reliable = true)
    (hst : st.reliableState i = some states_t.waitForOne) :
    (loop st t).calls = [(i, rest)] ∧
    (loop st t).writes = [i :: 1 :: 1 :: (pkt.event rest).1] ∧
    getAckNum (i :: 1 :: 1 :: (pkt.event rest).1) = 1 ∧
    (loop st t).coms.reliableState i = some states_t.waitForZero ∧
    (loop st t).coms.packets = st.packets ∧
    (loop st t).ret = 1 := by
  have hpk2 : st.packets (getPacketId t.readData) = some pkt := by
    rw [hdat]; exact hpk
  have hseq : getSeqNum t.readData = 1 := by rw [hdat]; rfl
  have hcur : st.reliableState (getPacketId t.readData) = some states_t.waitForOne := by
    rw [hdat]; exact hst
  have hr := reliable_odd_hit pkt (getPacketId t.readData) t.readData t.writeErr hseq
  rw [← hcur] at hr
  have hl := loop_reliable st t pkt _ hav hda hrd hpk2 hrel hr
  rw [hl]
  refine ⟨?_, ?_, ?_, ?_, ?_, ?_⟩ <;>
    simp [hdat, getPacketId_cons, payloadOf_cons, withPayload_cons, setAckNum_cons,
          getAckNum_cons, mapInsert_self]

/-- Witness for C3 at a concrete state and frame. -/
theorem C3_witness :
    (loop wComsOdd wT1).calls = [(5, [4, 9])] ∧
    (loop wComsOdd wT1).writes = [5 :: 1 :: 1 :: (wRelPkt.event [4, 9]).1] ∧
    getAckNum (5 :: 1 :: 1 :: (wRelPkt.event [4, 9]).1) = 1 ∧
    (loop wComsOdd wT1).coms.reliableState 5 = some states_t.waitForZero ∧
    (loop wComsOdd wT1).coms.packets = wComsOdd.packets ∧
    (loop wComsOdd wT1).ret = 1 :=
  C3_awaitingOdd_accept wComsOdd wT1 wRelPkt 5 0 [4, 9] rfl rfl rfl rfl rfl rfl rfl

/-- C9: only the exact expected sequence value is accepted: in `waitForZero`
every sequence byte other than 0 (not only 1) takes the duplicate branch
(no handler call, zeroed payload, ack 1, state unchanged), and in `waitForOne`
every sequence byte other than 1 (not only 0) takes the duplicate branch
(no handler call, zeroed payload, ack 0, state unchanged). -/
theorem C9_strict_parity_check (pkt : Packet) (id : Nat) (w : Bool)
    (i s a : Nat) (rest : List Nat) (hbyte : s < 256) :
    (s ≠ 0 →
      (handlePacketReliable pkt id (some states_t.waitForZero) (i :: s :: a :: rest) w).calls
        = [] ∧
      (handlePacketReliable pkt id (some states_t.waitForZero) (i :: s :: a :: rest) w).written
        = i :: s :: 1 :: List.replicate rest.length 0 ∧
      (handlePacketReliable pkt id (some states_t.waitForZero) (i :: s :: a :: rest) w).state
        = states_t.waitForZero) ∧
    (s ≠ 1 →
      (handlePacketReliable pkt id (some states_t.waitForOne) (i :: s :: a :: rest) w).calls
        = [] ∧
      (handlePacketReliable pkt id (some states_t.waitForOne) (i :: s :: a :: rest) w).written
        = i :: s :: 0 :: List.replicate rest.length 0 ∧
      (handlePacketReliable pkt id (some states_t.waitForOne) (i :: s :: a :: rest) w).state
        = states_t.waitForOne) := by
  constructor
  · intro hs
    have h := reliable_even_miss pkt id (i :: s :: a :: rest) w
      (by simpa [getSeqNum_cons] using hs)
    rw [h]
    simp [zeroPayload_cons, setAckNum_cons]
  · intro hs
    have h := reliable_odd_miss pkt id (i :: s :: a :: rest) w
      (by simpa [getSeqNum_cons] using hs)
    rw [h]
    simp [zeroPayload_cons, setAckNum_cons]

/-- Witness for C9 at sequence byte 7, which is neither 0 nor 1. -/
theorem C9_witness :
    ((handlePacketReliable wRelPkt 9 (some states_t.waitForZero) (9 :: 7 :: 0 :: [3]) false).calls
       = [] ∧
     (handlePacketReliable wRelPkt 9 (some states_t.waitForZero) (9 :: 7 :: 0 :: [3]) false).written
       = 9 :: 7 :: 1 :: List.replicate [3].length 0 ∧
     (handlePacketReliable wRelPkt 9 (some states_t.waitForZero) (9 :: 7 :: 0 :: [3]) false).state
       = states_t.waitForZero) ∧
    ((handlePacketReliable wRelPkt 9 (some states_t.waitForOne) (9 :: 7 :: 0 :: [3]) false).calls
       = [] ∧
     (handlePacketReliable wRelPkt 9 (some states_t.waitForOne) (9 :: 7 :: 0 :: [3]) false).written
       = 9 :: 7 :: 0 :: List.replicate [3].length 0 ∧
     (handlePacketReliable wRelPkt 9 (some states_t.waitForOne) (9 :: 7 :: 0 :: [3]) false).state
       = states_t.waitForOne) :=
  ⟨(C9_strict_parity_check wRelPkt 9 false 9 7 0 [3] (by decide)).1 (by decide),
   (C9_strict_parity_check wRelPkt 9 false 9 7 0 [3] (by decide)).2 (by decide)⟩

/-- Test fixture: transport whose `read` fails after data was available. -/
def wTread : TransportIn :=
  { availErr := false, availErrno := Errno.EIO, isDataAvailable := true,
    readErr := true, readData := [], writeErr := false }

/-- Test fixture: transport whose `isDataAvailable` fails with a genuine
error (`errno = EIO`, not the no-data condition). -/
def wTavail : TransportIn :=
  { availErr := true, availErrno := Errno.EIO, isDataAvailable := false,
    readErr := false, readData := [], writeErr := false }

/-- Counterexample for C5: when `read` fails, `loop` returns the success
value 1 to the caller — not `BOWLER_ERROR` — so the transport failure is not
reported to the caller (it writes no response, though). -/
theorem C5_counterexample :
    (loop emptyComs wTread).ret = 1 ∧
    (loop emptyComs wTread).ret ≠ BOWLER_ERROR ∧
    (loop emptyComs wTread).writes = [] :=
  ⟨rfl, by decide, rfl⟩

/-- C5 (amended): when the readiness check fails (for any reason) or the read
of a frame fails, the loop only logs the failure (readiness failures are
logged only when `errno` differs from the no-data condition `EWOULDBLOCK`),
returns the success value 1 to the caller (so it stays callable on subsequent
iterations), writes no response frame, and leaves the state unchanged. -/
theorem C5_amended_transport_failures_logged_not_returned (st : ComsState) (t : TransportIn) :
    (t.availErr = true →
      loop st t = { coms := st, writes := [], calls := [], ret := 1, errnoOut := none,
                    logs := if t.availErrno = Errno.EWOULDBLOCK then []
                            else [LogEvent.peekError t.availErrno] }) ∧
    (t.availErr = false → t.isDataAvailable = true → t.readErr = true →
      loop st t = { coms := st, writes := [], calls := [], ret := 1, errnoOut := none,
                    logs := [LogEvent.readError] }) :=
  ⟨fun hav => loop_availErr st t hav,
   fun hav hda hrd => loop_readErr st t hav hda hrd⟩

/-- Witness for the amended C5 at concrete failing transports. -/
theorem C5_witness :
    loop emptyComs wTavail
      = { coms := emptyComs, writes := [], calls := [], ret := 1, errnoOut := none,
          logs := [LogEvent.peekError Errno.EIO] } ∧
    loop emptyComs wTread
      = { coms := emptyComs, writes := [], calls := [], ret := 1, errnoOut := none,
          logs := [LogEvent.readError] } :=
  ⟨(C5_amended_transport_failures_logged_not_returned emptyComs wTavail).1 rfl,
   (C5_amended_transport_failures_logged_not_returned emptyComs wTread).2 rfl rfl rfl⟩

/-- C6: for every inbound frame whose identifier has no registered handler,
the dispatcher zeroes the payload region, writes the frame back with the
header bytes (identifier, sequence number, acknowledgment number) preserved,
and reports the unknown identifier to the caller (`BOWLER_ERROR` with
`errno = ENODEV`). -/
theorem C6_unknown_identifier (st : ComsState) (t : TransportIn)
    (i s a : Nat) (rest : List Nat)
    (hav : t.availErr = false) (hda : t.isDataAvailable = true) (hrd : t.readErr = false)
    (hdat : t.readData = i :: s :: a :: rest)
    (hpk : st.packets i = none) :
    (loop st t).ret = BOWLER_ERROR ∧
    (loop st t).errnoOut = some Errno.ENODEV ∧
    (loop st t).writes = [i :: s :: a :: List.replicate rest.length 0] ∧
    (loop st t).calls = [] ∧
    (loop st t).coms = st := by
  have hpk2 : st.packets (getPacketId t.readData) = none := by
    rw [hdat]; exact hpk
  have hl := loop_unknown st t hav hda hrd hpk2
  rw [hl]
  refine ⟨rfl, rfl, ?_, rfl, rfl⟩
  simp [hdat, zeroPayload_cons]

/-- Witness for C6: the empty registry rejects the frame `[5, 0, 0, 3, 0]`. -/
theorem C6_witness :
    (loop emptyComs wT0).ret = BOWLER_ERROR ∧
    (loop emptyComs wT0).errnoOut = some Errno.ENODEV ∧
    (loop emptyComs wT0).writes = [5 :: 0 :: 0 :: List.replicate [3, 0].length 0] ∧
    (loop emptyComs wT0).calls = [] ∧
    (loop emptyComs wT0).coms = emptyComs :=
  C6_unknown_identifier emptyComs wT0 5 0 0 [3, 0] rfl rfl rfl rfl rfl

/-- Counterexample for C4: after registering the reliable handler `wRelPkt`
at id 5 and then deregistering id 5, the handler entry is gone but the
reliability channel state is still present in the state table, so
deregistration does not remove the channel state. -/
theorem C4_counterexample :
    (removePacket wComs 5).packets 5 = none ∧
    (removePacket wComs 5).reliableState 5 = some states_t.waitForZero :=
  ⟨rfl, rfl⟩

/-- C4 (amended): deregistering an identifier removes the handler entry from
the registry and nothing else: the reliability state table and the ensured
queue are untouched (so any channel state associated with the identifier
survives), and deregistering an absent identifier is a no-op. -/
theorem C4_amended_remove_handler_only (st : ComsState) (iid : Nat) :
    (removePacket st iid).packets iid = none ∧
    (∀ k, k ≠ iid → (removePacket st iid).packets k = st.packets k) ∧
    (removePacket st iid).reliableState = st.reliableState ∧
    (removePacket st iid).ensuredPackets = st.ensuredPackets ∧
    (st.packets iid = none → removePacket st iid = st) := by
  refine ⟨by simp [removePacket, mapErase], ?_, rfl, rfl, ?_⟩
  · intro k hk
    simp [removePacket, mapErase, hk]
  · intro h
    have hp : mapErase iid st.packets = st.packets := by
      funext k
      by_cases hk : k = iid
      · subst hk; simp [mapErase, h]
      · simp [mapErase, hk]
    calc removePacket st iid = { st with packets := mapErase iid st.packets } := rfl
    _ = st := by rw [hp]

/-- Witness for the amended C4 at a concrete registered state. -/
theorem C4_witness :
    (removePacket wComs 5).packets 5 = none ∧
    (removePacket wComs 5).packets 9 = wComs.packets 9 ∧
    removePacket emptyComs 5 = emptyComs :=
  ⟨(C4_amended_remove_handler_only wComs 5).1,
   (C4_amended_remove_handler_only wComs 5).2.1 9 (by decide),
   (C4_amended_remove_handler_only emptyComs 5).2.2.2.2 rfl⟩

/-- C8: registering a handler whose identifier is already present fails with
`BOWLER_ERROR` and `errno = EINVAL` and leaves the whole state unchanged;
registering an absent identifier succeeds, stores the handler, and when the
handler declares reliability also initializes its channel state to
`waitForZero` (leaving every other entry of both tables unchanged). -/
theorem C8_register_duplicate_or_fresh (st : ComsState) (p : Packet) :
    ((∃ q, st.packets p.id = some q) →
      addPacket st p = { coms := st, ret := BOWLER_ERROR, errnoOut := some Errno.EINVAL }) ∧
    (st.packets p.id = none →
      (addPacket st p).ret = 1 ∧
      (addPacket st p).errnoOut = none ∧
      (addPacket st p).coms.packets p.id = some p ∧
      (∀ k, k ≠ p.id → (addPacket st p).coms.packets k = st.packets k) ∧
      (p.reliable = true →
        (addPacket st p).coms.reliableState p.id = some states_t.waitForZero) ∧
      (p.reliable = true → ∀ k, k ≠ p.id →
        (addPacket st p).coms.reliableState k = st.reliableState k) ∧
      (p.reliable = false → (addPacket st p).coms.reliableState = st.reliableState) ∧
      (addPacket st p).coms.ensuredPackets = st.ensuredPackets) := by
  constructor
  · rintro ⟨q, hq⟩
    simp [addPacket, hq]
  · intro h
    refine ⟨?_, ?_, ?_, ?_, ?_, ?_, ?_, ?_⟩
    · simp [addPacket, h]
    · simp [addPacket, h]
    · simp [addPacket, h, mapInsert_self]
    · intro k hk
      simp [addPacket, h, mapInsert_ne _ _ _ _ hk]
    · intro hrel
      simp [addPacket, h, hrel, mapInsert_self]
    · intro hrel k hk
      simp [addPacket, h, hrel, mapInsert_ne _ _ _ _ hk]
    · intro hrel
      simp [addPacket, h, hrel]
    · simp [addPacket, h]

/-- Witness for C8: re-registering id 5 fails and leaves the state intact;
registering id 5 into the empty state succeeds and initializes the channel. -/
theorem C8_witness :
    addPacket wComs wRelPkt
      = { coms := wComs, ret := BOWLER_ERROR, errnoOut := some Errno.EINVAL } ∧
    (addPacket emptyComs wRelPkt).ret = 1 ∧
    (addPacket emptyComs wRelPkt).coms.packets 5 = some wRelPkt ∧
    (addPacket emptyComs wRelPkt).coms.reliableState 5 = some states_t.waitForZero :=
  ⟨(C8_register_duplicate_or_fresh wComs wRelPkt).1 ⟨wRelPkt, rfl⟩,
   ((C8_register_duplicate_or_fresh emptyComs wRelPkt).2 rfl).1,
   ((C8_register_duplicate_or_fresh emptyComs wRelPkt).2 rfl).2.2.1,
   ((C8_register_duplicate_or_fresh emptyComs wRelPkt).2 rfl).2.2.2.2.1 rfl⟩

/-! Helper lemmas about draining the ensured-packet queue. -/

lemma addPacket_ensuredPackets (st : ComsState) (p : Packet) :
    (addPacket st p).coms.ensuredPackets = st.ensuredPackets := by
  cases h : st.packets p.id <;> simp [addPacket, h]

lemma addPacket_packets_mono (st : ComsState) (p : Packet) (k : Nat)
    (h : (st.packets k).isSome = true) :
    ((addPacket st p).coms.packets k).isSome = true := by
  cases hp : st.packets p.id with
  | none =>
    by_cases hk : k = p.id
    · subst hk; simp [addPacket, hp, mapInsert_self]
    · simpa [addPacket, hp, mapInsert_ne _ _ _ _ hk] using h
  | some q => simpa [addPacket, hp] using h

lemma drain_aux_preserves_queue (fs : List Packet) (st : ComsState) :
    (addEnsuredPacketsAux st fs).coms.ensuredPackets = st.ensuredPackets := by
  induction fs generalizing st with
  | nil => rfl
  | cons f rest ih =>
    by_cases hf : (addPacket st f).ret = BOWLER_ERROR
    · simp [addEnsuredPacketsAux, hf, addPacket_ensuredPackets]
    · simp [addEnsuredPacketsAux, hf, ih, addPacket_ensuredPackets]

lemma drain_aux_packets_mono (fs : List Packet) (st : ComsState) (k : Nat)
    (h : (st.packets k).isSome = true) :
    ((addEnsuredPacketsAux st fs).coms.packets k).isSome = true := by
  induction fs generalizing st with
  | nil => exact h
  | cons f rest ih =>
    by_cases hf : (addPacket st f).ret = BOWLER_ERROR
    · simpa [addEnsuredPacketsAux, hf] using addPacket_packets_mono st f k h
    · simpa [addEnsuredPacketsAux, hf] using ih _ (addPacket_packets_mono st f k h)

lemma drain_aux_stops_at_duplicate (pre : List Packet) (st st1 : ComsState)
    (f : Packet) (post : List Packet)
    (hpre : registerAll st pre = some st1)
    (hdup : (st1.packets f.id).isSome = true) :
    addEnsuredPacketsAux st (pre ++ f :: post) =
      { coms := st1, ret := BOWLER_ERROR, errnoOut := some Errno.EINVAL,
        invoked := pre ++ [f] } := by
  induction pre generalizing st with
  | nil =>
    have hst : st = st1 := by simpa [registerAll] using hpre
    subst hst
    obtain ⟨q, hq⟩ := Option.isSome_iff_exists.mp hdup
    simp [addEnsuredPacketsAux, addPacket, hq]
  | cons g pre ih =>
    cases hg : st.packets g.id with
    | some q => simp [registerAll, addPacket, hg, BOWLER_ERROR] at hpre
    | none =>
      have hpre2 : registerAll (addPacket st g).coms pre = some st1 := by
        have h1 : ¬((addPacket st g).ret = BOWLER_ERROR) := by
          simp [addPacket, hg, BOWLER_ERROR]
        simpa [registerAll, h1] using hpre
      have heq := ih _ hpre2
      have h1 : ¬((addPacket st g).ret = BOWLER_ERROR) := by
        simp [addPacket, hg, BOWLER_ERROR]
      simp [addEnsuredPacketsAux, h1, heq]

/-- Test fixture: an unreliable handler that also uses id 5, colliding with
`wRelPkt`. -/
def wRelPkt2 : Packet := { id := 5, reliable := false, event := fun p => (p, 1) }

/-- Test fixture: an unreliable handler at id 6. -/
def wPost : Packet := { id := 6, reliable := false, event := fun p => (p, 1) }

/-- Test fixture: the empty state with the factory queue
`[wRelPkt, wRelPkt2, wPost]`, whose second factory collides with the first. -/
def wQueueComs : ComsState :=
  addEnsuredPacket (addEnsuredPacket (addEnsuredPacket emptyComs wRelPkt) wRelPkt2) wPost

/-- Test fixture: `wQueueComs` after registering `wRelPkt`. -/
def wQueueComs1 : ComsState := (addPacket wQueueComs wRelPkt).coms

/-- C7: draining the ensured-packet queue invokes the queued factories in
order, attempting registration of each; at the first registration that fails
with a duplicate identifier (`BOWLER_ERROR`, `errno = EINVAL`) it stops and
reports the failure, every registration applied before the failure remains in
effect, and no factory after the failing one is invoked. -/
theorem C7_drain_stops_at_first_duplicate (st st1 : ComsState)
    (pre : List Packet) (f : Packet) (post : List Packet)
    (hq : st.ensuredPackets = pre ++ f :: post)
    (hpre : registerAll st pre = some st1)
    (hdup : (st1.packets f.id).isSome = true) :
    addEnsuredPackets st =
      { coms := st1, ret := BOWLER_ERROR, errnoOut := some Errno.EINVAL,
        invoked := pre ++ [f] } := by
  calc addEnsuredPackets st = addEnsuredPacketsAux st st.ensuredPackets := rfl
  _ = addEnsuredPacketsAux st (pre ++ f :: post) := by rw [hq]
  _ = _ := drain_aux_stops_at_duplicate pre st st1 f post hpre hdup

/-- Witness for C7: three queued factories where the second collides with the
first; the first is registered, draining stops at the second with
`BOWLER_ERROR`/`EINVAL`, and the third factory is never invoked. -/
theorem C7_witness :
    addEnsuredPackets wQueueComs =
      { coms := wQueueComs1, ret := BOWLER_ERROR, errnoOut := some Errno.EINVAL,
        invoked := [wRelPkt] ++ [wRelPkt2] } :=
  C7_drain_stops_at_first_duplicate wQueueComs wQueueComs1 [wRelPkt] wRelPkt2 [wPost]
    rfl rfl rfl

/-- Test fixture: the empty state with the collision-free factory queue
`[wRelPkt, wPost]`. -/
def wQueue2 : ComsState := addEnsuredPacket (addEnsuredPacket emptyComs wRelPkt) wPost

/-- C10: draining does not remove the factories from the queue: after a drain
in which at least one registration succeeded (equivalently, by the
stop-at-first-failure discipline, the first factory's registration succeeded),
a subsequent drain re-invokes the factories from the start and fails with
`BOWLER_ERROR`/`EINVAL` at the first factory, whose identifier the earlier
drain already registered. -/
theorem C10_drain_not_idempotent (st : ComsState) (f : Packet) (rest : List Packet)
    (hq : st.ensuredPackets = f :: rest)
    (hf : st.packets f.id = none) :
    (addEnsuredPackets st).coms.ensuredPackets = f :: rest ∧
    (((addEnsuredPackets st).coms.packets f.id).isSome = true) ∧
    addEnsuredPackets ((addEnsuredPackets st).coms) =
      { coms := (addEnsuredPackets st).coms, ret := BOWLER_ERROR,
        errnoOut := some Errno.EINVAL, invoked := [f] } := by
  have hq1 : (addEnsuredPackets st).coms.ensuredPackets = f :: rest := by
    have h := drain_aux_preserves_queue st.ensuredPackets st
    calc (addEnsuredPackets st).coms.ensuredPackets
        = (addEnsuredPacketsAux st st.ensuredPackets).coms.ensuredPackets := rfl
    _ = st.ensuredPackets := h
    _ = f :: rest := hq
  have h1 : ¬((addPacket st f).ret = BOWLER_ERROR) := by
    simp [addPacket, hf, BOWLER_ERROR]
  have hafter : (((addPacket st f).coms).packets f.id).isSome = true := by
    simp [addPacket, hf, mapInsert_self]
  have hsome : (((addEnsuredPackets st).coms).packets f.id).isSome = true := by
    have hstep :
        (addEnsuredPacketsAux st (f :: rest)).coms
          = (addEnsuredPacketsAux (addPacket st f).coms rest).coms := by
      simp [addEnsuredPacketsAux, h1]
    calc ((addEnsuredPackets st).coms.packets f.id).isSome
        = ((addEnsuredPacketsAux st st.ensuredPackets).coms.packets f.id).isSome := rfl
    _ = ((addEnsuredPacketsAux st (f :: rest)).coms.packets f.id).isSome := by rw [hq]
    _ = ((addEnsuredPacketsAux (addPacket st f).coms rest).coms.packets f.id).isSome := by
          rw [hstep]
    _ = true := drain_aux_packets_mono rest _ f.id hafter
  obtain ⟨q, hq2⟩ := Option.isSome_iff_exists.mp hsome
  refine ⟨hq1, hsome, ?_⟩
  calc addEnsuredPackets ((addEnsuredPackets st).coms)
      = addEnsuredPacketsAux ((addEnsuredPackets st).coms)
          ((addEnsuredPackets st).coms.ensuredPackets) := rfl
  _ = addEnsuredPacketsAux ((addEnsuredPackets st).coms) (f :: rest) := by rw [hq1]
  _ = { coms := (addEnsuredPackets st).coms, ret := BOWLER_ERROR,
        errnoOut := some Errno.EINVAL, invoked := [f] } := by
        simp [addEnsuredPacketsAux, addPacket, hq2]

/-- Witness for C10: drain the collision-free queue `[wRelPkt, wPost]` once
(both registrations succeed), then drain again: the second call re-invokes
`wRelPkt` and fails at its already-registered id 5. -/
theorem C10_witness :
    (addEnsuredPackets wQueue2).coms.ensuredPackets = wRelPkt :: [wPost] ∧
    (((addEnsuredPackets wQueue2).coms.packets 5).isSome = true) ∧
    addEnsuredPackets ((addEnsuredPackets wQueue2).coms) =
      { coms := (addEnsuredPackets wQueue2).coms, ret := BOWLER_ERROR,
        errnoOut := some Errno.EINVAL, invoked := [wRelPkt] } :=
  C10_drain_not_idempotent wQueue2 wRelPkt [wPost] rfl rfl

end Bowler
